import Mathlib

/-!
Shallow embedding of the DreamInk backend (src/main.py) and proofs about it.

The embedding covers:
* the composer `craft_lines` with its static tables (`palettes`, `tone_lines`,
  `structures`): Python's `random.shuffle` is modelled by an arbitrary
  function `shuffle` applied to the palette, with the permutation property
  `(shuffle ws).Perm ws` taken as a hypothesis where a theorem needs it;
* `image_for` together with a byte-level model of `urllib.parse.quote`
  (default `safe := "/"`, UTF-8 encoding, uppercase hex escapes);
* the diagnostic probe `test_database`, with the optional `database` module,
  the `db` handle and the environment variables modelled by an explicit
  environment record, and Python exceptions modelled by `Except`.

Python string templates (`str.format`) are modelled as lists of pieces, each
piece a literal or a named slot; rendering a template with the literal
placeholder texts reproduces the exact source strings (see the
`*_templates_text` theorems).
-/

/-- Model of Python `str.strip()`: drop whitespace characters from both ends.
The whitespace set is the ASCII one (space, tab, newline, carriage return,
vertical tab, form feed). -/
def isSpaceChar (c : Char) : Bool :=
  c = ' ' || c = '\t' || c = '\n' || c = '\r' || c = '\x0b' || c = '\x0c'

/-- Model of Python `s.strip()` on strings. -/
def pyStrip (s : String) : String :=
  String.mk (((s.data.dropWhile isSpaceChar).reverse.dropWhile isSpaceChar).reverse)

/-- Model of Python slicing `s[:n]` (first `n` characters). -/
def pyTake (s : String) (n : Nat) : String :=
  String.mk (s.data.take n)

/-- The named slots a line template can use: `{prompt}` and `{w1}`..`{w6}`. -/
inductive Slot where
  | prompt
  | w1
  | w2
  | w3
  | w4
  | w5
  | w6
deriving DecidableEq, Repr

/-- A piece of a line template: a literal run of text or a named slot. -/
inductive Piece where
  | lit (s : String)
  | slot (x : Slot)
deriving DecidableEq, Repr

/-- The literal placeholder text of each slot, as it appears in src/main.py. -/
def placeholderText : Slot → String
  | .prompt => "{prompt}"
  | .w1 => "{w1}"
  | .w2 => "{w2}"
  | .w3 => "{w3}"
  | .w4 => "{w4}"
  | .w5 => "{w5}"
  | .w6 => "{w6}"

/-- Render a template back to its source text, slots shown as `{name}`. -/
def renderT : List Piece → String
  | [] => ""
  | .lit s :: r => s ++ renderT r
  | .slot x :: r => placeholderText x ++ renderT r

/-- The mood palette table of `craft_lines`, including the
`palettes.get(mood, palettes["Dreamlike"])` fallback for unknown moods. -/
def palettes (mood : String) : List String :=
  if mood = "Romantic" then ["rose", "heartbeat", "velvet", "starlit", "whisper", "tender"]
  else if mood = "Melancholic" then ["rain", "echo", "ashen", "window", "ache", "distant"]
  else if mood = "Hopeful" then ["dawn", "warmth", "seed", "lift", "promise", "bright"]
  else if mood = "Dreamlike" then ["silk", "float", "mist", "lantern", "lucid", "drift"]
  else if mood = "Haunting" then ["hollow", "candle", "shadow", "marrow", "threshold", "murmur"]
  else ["silk", "float", "mist", "lantern", "lucid", "drift"]

/-- The `tone_lines` table of `craft_lines`; `none` models a `KeyError`. -/
def tone_lines (format : String) : Option Nat :=
  if format = "Poem" then some 8
  else if format = "Short Story" then some 14
  else if format = "Haiku" then some 3
  else if format = "Microfiction" then some 5
  else none

/-- The "Poem" templates of `structures`. -/
def poemT : List (List Piece) :=
  [[.slot .prompt, .lit " ", .slot .w1, .lit " in the ", .slot .w2, .lit " of night"],
   [.lit "I fold a ", .slot .w3, .lit " letter to the sky"],
   [.lit "between breaths, ", .slot .w4, .lit " syllables glow"],
   [.lit "your name is a small ", .slot .w5, .lit " constellating"],
   [.lit "the world tilts toward a quiet ", .slot .w6],
   [.lit "and somewhere, the future loosens its hands"],
   [.lit "we step into a doorway made of hush"],
   [.lit "and call it home for one more luminous minute"]]

/-- The "Short Story" templates of `structures`. -/
def storyT : List (List Piece) :=
  [[.lit "The evening learned our names before we spoke."],
   [.slot .prompt, .lit " was only a rumor the moon kept repeating."],
   [.lit "In the kitchen, a ", .slot .w1, .lit " clock dripped time into a chipped mug."],
   [.lit "We traded secrets like small ", .slot .w2, .lit " coins, warm from the palm."],
   [.lit "Outside, the alley held its breath, all ", .slot .w3, .lit " and listening."],
   [.lit "You said tomorrow, and the word wavered, a ", .slot .w4, .lit " lantern."],
   [.lit "I wanted to believe in the simple machinery of hope."],
   [.lit "We walked past windows where strangers practiced happiness."],
   [.lit "The city unfurled, a long ", .slot .w5, .lit " ribbon of headlights."],
   [.lit "At the river, someone had left a message in the reeds."],
   [.lit "It said: keep going. It said: the door is almost open."],
   [.lit "We did not turn back. The night followed, gentle and ", .slot .w6, .lit "."],
   [.lit "Somewhere a small animal remembered our footsteps."],
   [.lit "And the future, patient, set another place at the table."]]

/-- The "Haiku" templates of `structures`. -/
def haikuT : List (List Piece) :=
  [[.slot .prompt, .lit " in mist"],
   [.lit "a ", .slot .w1, .lit " window breathing"],
   [.lit "dawn learns our ", .slot .w2]]

/-- The "Microfiction" templates of `structures`. -/
def microT : List (List Piece) :=
  [[.lit "We met where ", .slot .prompt, .lit " became a password."],
   [.lit "You laughed, and the ", .slot .w1, .lit " street forgot its loneliness."],
   [.lit "We promised only this: to listen for ", .slot .w2, .lit " doors opening."],
   [.lit "Night wrote our names on its ", .slot .w3, .lit " palm and did not close its hand."],
   [.lit "In the morning, one small ", .slot .w4, .lit " miracle was still there, waiting."]]

/-- The `structures` table of `craft_lines`; `none` models a `KeyError` on an
unknown format key. -/
def structures (format : String) : Option (List (List Piece)) :=
  if format = "Poem" then some poemT
  else if format = "Short Story" then some storyT
  else if format = "Haiku" then some haikuT
  else if format = "Microfiction" then some microT
  else none

/-- Cyclic indexing `words[n % len(words)]` from `craft_lines`
(the default is never reached when `ws` is non-empty). -/
def cyc (ws : List String) (n : Nat) : String :=
  ws.getD (n % ws.length) ""

/-- The value substituted for one slot of the template at position `i`:
`{prompt}` receives the stripped prompt `p`, and `{wk}` receives
`words[(i + (k-1)) % len(words)]`, exactly as in the loop of `craft_lines`. -/
def slotValue (p : String) (ws : List String) (i : Nat) : Slot → String
  | .prompt => p
  | .w1 => cyc ws i
  | .w2 => cyc ws (i + 1)
  | .w3 => cyc ws (i + 2)
  | .w4 => cyc ws (i + 3)
  | .w5 => cyc ws (i + 4)
  | .w6 => cyc ws (i + 5)

/-- Fill one piece of a template. -/
def fillPiece (p : String) (ws : List String) (i : Nat) : Piece → String
  | .lit s => s
  | .slot x => slotValue p ws i x

/-- Fill a whole template (Python `t.format(prompt=..., w1=..., ..., w6=...)`
for the template at position `i`). -/
def fillTemplate (p : String) (ws : List String) (i : Nat) : List Piece → String
  | [] => ""
  | pc :: rest => fillPiece p ws i pc ++ fillTemplate p ws i rest

/-- The six words `w1..w6` derived for the line at position `i`. -/
def lineWords (ws : List String) (i : Nat) : List String :=
  (List.range 6).map (fun k => cyc ws (i + k))

/-- The recognized moods (the `Literal` mood set of the request model). -/
def validMoods : List String :=
  ["Romantic", "Melancholic", "Hopeful", "Dreamlike", "Haunting"]

/-- The recognized formats (the `Literal` format set of the request model). -/
def validFormats : List String :=
  ["Poem", "Short Story", "Haiku", "Microfiction"]

/-- The composer `craft_lines` of src/main.py.  `shuffle` stands for
`random.shuffle` acting on the copied palette: the caller supplies the
permutation the shared random source produced.  `none` models the `KeyError`
raised on an unknown format (unreachable behind the validated boundary). -/
def craft_lines (prompt mood format : String) (shuffle : List String → List String) :
    Option (List String) :=
  let words := shuffle (palettes mood)
  match structures format, tone_lines format with
  | some tmpl, some target =>
      some (((List.range tmpl.length).map
        (fun i => fillTemplate (pyStrip prompt) words i (tmpl.getD i []))).take target)
  | _, _ => none

/-- Membership of a string in another (`sub` occurs contiguously in `s`). -/
def containsStr (s sub : String) : Prop :=
  sub.data <:+: s.data

instance (s sub : String) : Decidable (containsStr s sub) :=
  inferInstanceAs (Decidable (sub.data <:+: s.data))

/-- The always-safe bytes of `urllib.parse.quote`: ASCII letters, digits and
`_ . - ~`. -/
def alwaysSafe (b : Nat) : Bool :=
  (decide (65 ≤ b) && decide (b ≤ 90)) ||
  (decide (97 ≤ b) && decide (b ≤ 122)) ||
  (decide (48 ≤ b) && decide (b ≤ 57)) ||
  decide (b = 95) || decide (b = 46) || decide (b = 45) || decide (b = 126)

/-- Uppercase hexadecimal digit, as produced by `urllib.parse.quote`. -/
def hexDigit (n : Nat) : Char :=
  if n < 10 then Char.ofNat (48 + n) else Char.ofNat (55 + n)

/-- UTF-8 encoding of one unicode scalar value. -/
def utf8Bytes (c : Nat) : List Nat :=
  if c < 128 then [c]
  else if c < 2048 then [192 + c / 64, 128 + c % 64]
  else if c < 65536 then [224 + c / 4096, 128 + (c / 64) % 64, 128 + c % 64]
  else [240 + c / 262144, 128 + (c / 4096) % 64, 128 + (c / 64) % 64, 128 + c % 64]

/-- UTF-8 encoding of a character sequence. -/
def utf8Encode : List Char → List Nat
  | [] => []
  | c :: r => utf8Bytes c.toNat ++ utf8Encode r

/-- Percent-encode a byte sequence as `urllib.parse.quote` does with the
default `safe := "/"`: safe bytes pass through, every other byte becomes
`%XX` with uppercase hex. -/
def quoteBytes : List Nat → List Char
  | [] => []
  | b :: rest =>
      (if alwaysSafe b || b = 47 then [Char.ofNat b]
       else ['%', hexDigit (b / 16), hexDigit (b % 16)]) ++ quoteBytes rest

/-- Model of `urllib.parse.quote(s)` (default arguments). -/
def quote (s : String) : String :=
  String.mk (quoteBytes (utf8Encode s.data))

/-- The keyword string built by `image_for`: the fixed aesthetic keywords,
the mood tag and the raw (untrimmed) prompt, comma-separated. -/
def keywords (prompt mood : String) : String :=
  "abstract,art,gradient,light,bokeh," ++ mood ++ "," ++ prompt

/-- The Image Locator `image_for` of src/main.py. -/
def image_for (prompt mood : String) : String :=
  "https://source.unsplash.com/1024x768/?" ++ quote (keywords prompt mood)

/-- A character that may appear verbatim in the query part of a URL as
produced by `quote`: an always-safe byte, the safe slash, or the escape
character `%` introducing a hex pair. -/
def validUrlChar (c : Char) : Bool :=
  alwaysSafe c.toNat || c = '%' || c = '/'

/-- Model of the `db` handle of the optional `database` module:
`name` is `none` when `hasattr(db, "name")` is false, and
`listCollections` is the outcome of `db.list_collection_names()`
(`Except.error e` models a raised exception with text `e`). -/
structure DBHandle where
  name : Option String
  listCollections : Except String (List String)

/-- Outcome of `from database import db`: the import can raise
`ImportError`, raise some other exception, or succeed with `db` either
`None` or a handle. -/
inductive ImportDb where
  | importError
  | otherError (msg : String)
  | ok (db : Option DBHandle)

/-- The environment the diagnostic probe runs in: the import outcome and
the raw values of the two environment variables (`none` = unset). -/
structure Env where
  importDb : ImportDb
  databaseUrl : Option String
  databaseName : Option String

/-- The response dictionary built by `test_database`. -/
structure Response where
  backend : String
  database : String
  database_url : Option String
  database_name : Option String
  connection_status : String
  collections : List String
deriving DecidableEq, Repr

/-- Python truthiness of `os.getenv(...)`: `None` and the empty string are
falsy, every other string is truthy. -/
def envTruthy : Option String → Bool
  | none => false
  | some s => !(s = "")

/-- The diagnostic probe `test_database` of src/main.py.  Every `try/except`
of the source is a total `match` here, so the function returns a `Response`
for every environment. -/
def test_database (env : Env) : Response :=
  let r0 : Response :=
    { backend := "✅ Running"
      database := "❌ Not Available"
      database_url := none
      database_name := none
      connection_status := "Not Connected"
      collections := [] }
  let r1 : Response :=
    match env.importDb with
    | .importError =>
        { r0 with database := "❌ Database module not found (run enable-database first)" }
    | .otherError e =>
        { r0 with database := "❌ Error: " ++ pyTake e 50 }
    | .ok none =>
        { r0 with database := "⚠️  Available but not initialized" }
    | .ok (some db) =>
        let r2 :=
          { r0 with
            database := "✅ Available"
            database_url := some "✅ Configured"
            database_name := some (match db.name with
              | some n => n
              | none => "✅ Connected")
            connection_status := "Connected" }
        match db.listCollections with
        | .ok cols =>
            { r2 with collections := cols.take 10, database := "✅ Connected & Working" }
        | .error e =>
            { r2 with database := "⚠️  Connected but Error: " ++ pyTake e 50 }
  { r1 with
    database_url := some (if envTruthy env.databaseUrl then "✅ Set" else "❌ Not Set")
    database_name := some (if envTruthy env.databaseName then "✅ Set" else "❌ Not Set") }

/-! ## Supporting lemmas -/

theorem palettes_length (mood : String) : (palettes mood).length = 6 := by
  unfold palettes
  repeat' split
  all_goals rfl

theorem palettes_nodup (mood : String) : (palettes mood).Nodup := by
  unfold palettes
  repeat' split
  all_goals decide

theorem palettes_ne_nil (mood : String) : palettes mood ≠ [] := by
  intro h
  have h6 := palettes_length mood
  rw [h] at h6
  simp at h6

theorem cyc_mem (ws : List String) (h : ws ≠ []) (n : Nat) : cyc ws n ∈ ws := by
  unfold cyc
  have hlen : 0 < ws.length := List.length_pos.mpr h
  rw [List.getD_eq_getElem ws "" (Nat.mod_lt _ hlen)]
  exact List.getElem_mem _

theorem lineWords_eq_rotate (ws : List String) (h6 : ws.length = 6) (i : Nat) :
    lineWords ws i = ws.rotate i := by
  apply List.ext_getElem
  · simp [lineWords, List.length_rotate, h6]
  · intro k hk1 hk2
    simp only [lineWords, List.getElem_map, List.getElem_range]
    rw [List.getElem_rotate]
    simp only [cyc, h6]
    rw [List.getD_eq_getElem ws "" (by rw [h6]; exact Nat.mod_lt _ (by omega))]
    congr 1
    omega

theorem craft_lines_eq (prompt mood format : String) (σ : List String → List String)
    (tmpl : List (List Piece)) (target : Nat)
    (hs : structures format = some tmpl) (ht : tone_lines format = some target) :
    craft_lines prompt mood format σ =
      some (((List.range tmpl.length).map
        (fun i => fillTemplate (pyStrip prompt) (σ (palettes mood)) i (tmpl.getD i []))).take target) := by
  unfold craft_lines
  rw [hs, ht]

theorem craft_lines_inv (prompt mood format : String) (σ : List String → List String)
    (l : List String) (hl : craft_lines prompt mood format σ = some l) :
    ∃ tmpl target, structures format = some tmpl ∧ tone_lines format = some target ∧
      l = ((List.range tmpl.length).map
        (fun i => fillTemplate (pyStrip prompt) (σ (palettes mood)) i (tmpl.getD i []))).take target := by
  unfold craft_lines at hl
  cases hs : structures format with
  | none => rw [hs] at hl; simp at hl
  | some tmpl =>
    cases ht : tone_lines format with
    | none => rw [hs, ht] at hl; simp at hl
    | some target =>
      rw [hs, ht] at hl
      exact ⟨tmpl, target, rfl, rfl, (Option.some.inj hl).symm⟩

theorem fillTemplate_append (p : String) (ws : List String) (i : Nat) (t₁ t₂ : List Piece) :
    fillTemplate p ws i (t₁ ++ t₂) = fillTemplate p ws i t₁ ++ fillTemplate p ws i t₂ := by
  induction t₁ with
  | nil => rw [List.nil_append, fillTemplate, String.empty_append]
  | cons pc r ih => rw [List.cons_append, fillTemplate, fillTemplate, ih, String.append_assoc]

theorem fillTemplate_prompt_free (ws : List String) (i : Nat) (t : List Piece)
    (hfree : Piece.slot Slot.prompt ∉ t) (p q : String) :
    fillTemplate p ws i t = fillTemplate q ws i t := by
  induction t with
  | nil => rfl
  | cons pc r ih =>
    simp only [List.mem_cons, not_or] at hfree
    obtain ⟨h1, h2⟩ := hfree
    have hpc : fillPiece p ws i pc = fillPiece q ws i pc := by
      cases pc with
      | lit s => rfl
      | slot x =>
        cases x with
        | prompt => exact absurd rfl h1
        | w1 => rfl
        | w2 => rfl
        | w3 => rfl
        | w4 => rfl
        | w5 => rfl
        | w6 => rfl
    rw [fillTemplate, fillTemplate, hpc, ih h2]

theorem fillTemplate_has_prompt (p : String) (ws : List String) (i : Nat) (t : List Piece)
    (hmem : Piece.slot Slot.prompt ∈ t) :
    containsStr (fillTemplate p ws i t) p := by
  obtain ⟨t₁, t₂, rfl⟩ := List.append_of_mem hmem
  refine ⟨(fillTemplate p ws i t₁).data, (fillTemplate p ws i t₂).data, ?_⟩
  rw [fillTemplate_append, fillTemplate, fillPiece, slotValue]
  simp [String.data_append, List.append_assoc]

/-! ## Claim theorems -/

/-- C1: For every valid mood and every valid format, `craft_lines` returns a
sequence with exactly the format's target line count (Poem 8, Short Story 14,
Haiku 3, Microfiction 5); the result is obtained by filling every template in
order and truncating to the first target-count entries, and each format's
template sequence length is at least its target count. -/
theorem claim1_target_line_count (prompt mood format : String) (target : Nat)
    (σ : List String → List String)
    (hm : mood ∈ validMoods)
    (hf : (format, target) ∈ [("Poem", 8), ("Short Story", 14), ("Haiku", 3), ("Microfiction", 5)])
    (hσ : (σ (palettes mood)).Perm (palettes mood)) :
    target ≤ ((structures format).getD []).length ∧
    (craft_lines prompt mood format σ).map List.length = some target ∧
    craft_lines prompt mood format σ =
      some (((List.range ((structures format).getD []).length).map
        (fun i => fillTemplate (pyStrip prompt) (σ (palettes mood)) i
          (((structures format).getD []).getD i []))).take target) := by
  simp only [List.mem_cons, List.not_mem_nil, or_false, Prod.mk.injEq] at hf
  rcases hf with ⟨rfl, rfl⟩ | ⟨rfl, rfl⟩ | ⟨rfl, rfl⟩ | ⟨rfl, rfl⟩
  · refine ⟨by decide, ?_, craft_lines_eq _ _ _ _ poemT 8 rfl rfl⟩
    rw [craft_lines_eq prompt mood "Poem" σ poemT 8 rfl rfl]
    simp [poemT]
  · refine ⟨by decide, ?_, craft_lines_eq _ _ _ _ storyT 14 rfl rfl⟩
    rw [craft_lines_eq prompt mood "Short Story" σ storyT 14 rfl rfl]
    simp [storyT]
  · refine ⟨by decide, ?_, craft_lines_eq _ _ _ _ haikuT 3 rfl rfl⟩
    rw [craft_lines_eq prompt mood "Haiku" σ haikuT 3 rfl rfl]
    simp [haikuT]
  · refine ⟨by decide, ?_, craft_lines_eq _ _ _ _ microT 5 rfl rfl⟩
    rw [craft_lines_eq prompt mood "Microfiction" σ microT 5 rfl rfl]
    simp [microT]

/-- C2: For every valid mood and format, the words substituted into the line
at position `i` are drawn by indexing the shuffled palette at
`(i + k) % len(palette)` for `k = 0..5`: each output line is the template
filled at position `i`, and the six derived words form the rotating window
`palette.rotate i`, wrapping around the shuffled palette. -/
theorem claim2_rotating_window (prompt mood format : String)
    (σ : List String → List String) (tmpl : List (List Piece)) (l : List String)
    (hσ : (σ (palettes mood)).Perm (palettes mood))
    (hs : structures format = some tmpl)
    (hl : craft_lines prompt mood format σ = some l) :
    ∀ i, i < l.length →
      (l.getD i "" = fillTemplate (pyStrip prompt) (σ (palettes mood)) i (tmpl.getD i []) ∧
       lineWords (σ (palettes mood)) i = (σ (palettes mood)).rotate i ∧
       ∀ k, k < 6 →
         (lineWords (σ (palettes mood)) i).getD k "" =
           (σ (palettes mood)).getD ((i + k) % (σ (palettes mood)).length) "") := by
  intro i hi
  have h6 : (σ (palettes mood)).length = 6 := hσ.length_eq.trans (palettes_length mood)
  obtain ⟨tmpl', target, hs', ht', hleq⟩ := craft_lines_inv _ _ _ _ _ hl
  rw [hs] at hs'
  have htmpl : tmpl = tmpl' := Option.some.inj hs'
  subst htmpl
  refine ⟨?_, lineWords_eq_rotate _ h6 i, ?_⟩
  · subst hleq
    rw [List.getD_eq_getElem _ "" hi]
    simp [List.getElem_take, List.getElem_map, List.getElem_range]
  · intro k hk
    have hk6 : k < (lineWords (σ (palettes mood)) i).length := by
      simp [lineWords]
      omega
    rw [List.getD_eq_getElem _ "" hk6]
    simp [lineWords, List.getElem_map, List.getElem_range, cyc]

/-- C3 (amended): For every prompt and valid format, the trimmed prompt
appears verbatim in every output line whose template contains the prompt
placeholder; a line whose template omits the placeholder receives no prompt
substitution (its text is independent of the prompt), though the trimmed
prompt can still occur in it as literal template text or as a palette word. -/
theorem claim3_prompt_in_lines (prompt mood format : String)
    (σ : List String → List String) (tmpl : List (List Piece)) (l : List String)
    (hs : structures format = some tmpl)
    (hl : craft_lines prompt mood format σ = some l) :
    ∀ i, i < l.length →
      ((Piece.slot Slot.prompt ∈ tmpl.getD i [] → containsStr (l.getD i "") (pyStrip prompt)) ∧
       (Piece.slot Slot.prompt ∉ tmpl.getD i [] →
         ∀ q, fillTemplate (pyStrip q) (σ (palettes mood)) i (tmpl.getD i []) = l.getD i "")) := by
  intro i hi
  obtain ⟨tmpl', target, hs', ht', hleq⟩ := craft_lines_inv _ _ _ _ _ hl
  rw [hs] at hs'
  have htmpl : tmpl = tmpl' := Option.some.inj hs'
  subst htmpl
  have hline : l.getD i "" = fillTemplate (pyStrip prompt) (σ (palettes mood)) i (tmpl.getD i []) := by
    subst hleq
    rw [List.getD_eq_getElem _ "" hi]
    simp [List.getElem_take, List.getElem_map, List.getElem_range]
  constructor
  · intro hmem
    rw [hline]
    exact fillTemplate_has_prompt _ _ _ _ hmem
  · intro hfree q
    rw [hline]
    exact fillTemplate_prompt_free _ _ _ hfree _ _

/-- C3 counterexample: with prompt `"window"`, mood Dreamlike, format Haiku
and the identity shuffle, the second output line is
`"a float window breathing"`: its template contains no prompt placeholder,
yet the trimmed prompt occurs verbatim in it, refuting the claim that the
prompt never appears in lines whose template omits the placeholder. -/
theorem claim3_counterexample :
    Piece.slot Slot.prompt ∉ ((structures "Haiku").getD []).getD 1 [] ∧
    craft_lines "window" "Dreamlike" "Haiku" id =
      some ["window in mist", "a float window breathing", "dawn learns our lantern"] ∧
    containsStr (((craft_lines "window" "Dreamlike" "Haiku" id).getD []).getD 1 "")
      (pyStrip "window") := by
  refine ⟨by decide, by rfl, ?_⟩
  show containsStr "a float window breathing" "window"
  exact ⟨"a float ".data, " breathing".data, by decide⟩

/-- C4: For every mood string outside the five recognized moods the composer
does not fail: the palette lookup falls back to the Dreamlike palette and the
output of `craft_lines` is identical to what the Dreamlike mood produces. -/
theorem claim4_unknown_mood_fallback (mood : String) (hm : mood ∉ validMoods) :
    palettes mood = palettes "Dreamlike" ∧
    ∀ prompt format σ, craft_lines prompt mood format σ = craft_lines prompt "Dreamlike" format σ := by
  simp only [validMoods, List.mem_cons, List.not_mem_nil, or_false, not_or] at hm
  obtain ⟨h1, h2, h3, h4, h5⟩ := hm
  have hpal : palettes mood = palettes "Dreamlike" := by
    unfold palettes
    rw [if_neg h1, if_neg h2, if_neg h3, if_neg h4, if_neg h5]
    rfl
  refine ⟨hpal, ?_⟩
  intro prompt format σ
  unfold craft_lines
  rw [hpal]

/-- C5: For every mood (recognized or not, via the Dreamlike fallback encoded
in `palettes`), if the shuffled working list is a permutation of the mood's
palette then every word substituted for a `w`-slot of any line, and every
entry of the derived word window of any line, belongs to that palette. -/
theorem claim5_words_from_palette (mood prompt : String) (σ : List String → List String)
    (hσ : (σ (palettes mood)).Perm (palettes mood)) :
    (∀ i x, x ≠ Slot.prompt → slotValue (pyStrip prompt) (σ (palettes mood)) i x ∈ palettes mood) ∧
    (∀ i w, w ∈ lineWords (σ (palettes mood)) i → w ∈ palettes mood) := by
  have hne : σ (palettes mood) ≠ [] := by
    intro h
    have h6 := hσ.length_eq.trans (palettes_length mood)
    rw [h] at h6
    simp at h6
  have hmem : ∀ n, cyc (σ (palettes mood)) n ∈ palettes mood := fun n =>
    hσ.mem_iff.mp (cyc_mem _ hne n)
  constructor
  · intro i x hx
    cases x with
    | prompt => exact absurd rfl hx
    | w1 => exact hmem i
    | w2 => exact hmem (i + 1)
    | w3 => exact hmem (i + 2)
    | w4 => exact hmem (i + 3)
    | w5 => exact hmem (i + 4)
    | w6 => exact hmem (i + 5)
  · intro i w hw
    simp only [lineWords, List.mem_map, List.mem_range] at hw
    obtain ⟨k, hk, rfl⟩ := hw
    exact hmem (i + k)

/-- C6: The Image Locator is deterministic: two calls of `image_for` with
identical prompt and mood arguments yield the identical URL string
(`image_for` is a pure function of its two inputs; it consumes no randomness
and never calls the composer). -/
theorem claim6_image_deterministic (p₁ m₁ p₂ m₂ : String) (hp : p₁ = p₂) (hm : m₁ = m₂) :
    image_for p₁ m₁ = image_for p₂ m₂ := by
  subst hp
  subst hm
  rfl

/-- C9: For every mood and every shuffle outcome (any permutation of the
palette), the six words derived for one line are pairwise distinct: each
palette has six distinct words and the window indices are distinct modulo 6,
so no word repeats within a single line. -/
theorem claim9_no_repeat_within_line (mood : String) (σ : List String → List String)
    (hσ : (σ (palettes mood)).Perm (palettes mood)) (i : Nat) :
    (lineWords (σ (palettes mood)) i).Nodup := by
  have h6 : (σ (palettes mood)).length = 6 := hσ.length_eq.trans (palettes_length mood)
  rw [lineWords_eq_rotate _ h6 i]
  exact List.nodup_rotate.mpr (hσ.nodup_iff.mpr (palettes_nodup mood))

theorem char_toNat_lt (c : Char) : c.toNat < 1114112 := by
  have h := c.valid
  unfold UInt32.isValidChar Nat.isValidChar at h
  show c.val.toNat < 1114112
  omega

theorem utf8Bytes_lt (n : Nat) (hn : n < 1114112) : ∀ b ∈ utf8Bytes n, b < 256 := by
  intro b hb
  unfold utf8Bytes at hb
  split at hb
  · simp at hb
    omega
  · split at hb
    · simp at hb
      rcases hb with rfl | rfl <;> omega
    · split at hb
      · simp at hb
        rcases hb with rfl | rfl | rfl <;> omega
      · simp at hb
        rcases hb with rfl | rfl | rfl | rfl <;> omega

theorem utf8Encode_lt (l : List Char) : ∀ b ∈ utf8Encode l, b < 256 := by
  induction l with
  | nil => intro b hb; simp [utf8Encode] at hb
  | cons c r ih =>
    intro b hb
    rw [utf8Encode] at hb
    rcases List.mem_append.mp hb with h | h
    · exact utf8Bytes_lt c.toNat (char_toNat_lt c) b h
    · exact ih b h

theorem validUrlChar_ofNat :
    ∀ b, b < 127 → (alwaysSafe b || decide (b = 47)) = true →
      validUrlChar (Char.ofNat b) = true := by decide

theorem validUrlChar_hexDigit : ∀ n, n < 16 → validUrlChar (hexDigit n) = true := by decide

theorem quoteBytes_valid (bs : List Nat) (hbs : ∀ b ∈ bs, b < 256) :
    ∀ c ∈ quoteBytes bs, validUrlChar c = true := by
  induction bs with
  | nil => intro c hc; simp [quoteBytes] at hc
  | cons b rest ih =>
    intro c hc
    rw [quoteBytes] at hc
    rcases List.mem_append.mp hc with h | h
    · split at h
      case isTrue hcond =>
        simp only [List.mem_singleton] at h
        subst h
        have hlt : b < 127 := by
          simp [alwaysSafe] at hcond
          omega
        exact validUrlChar_ofNat b hlt hcond
      case isFalse hcond =>
        simp only [List.mem_cons, List.not_mem_nil, or_false] at h
        have hb256 : b < 256 := hbs b (List.mem_cons_self b rest)
        rcases h with rfl | rfl | rfl
        · decide
        · exact validUrlChar_hexDigit (b / 16) (by omega)
        · exact validUrlChar_hexDigit (b % 16) (by omega)
    · exact ih (fun x hx => hbs x (List.mem_cons_of_mem b hx)) c h

theorem quote_valid (s : String) : ∀ c ∈ (quote s).data, validUrlChar c = true :=
  fun c hc => quoteBytes_valid (utf8Encode s.data) (utf8Encode_lt s.data) c hc

/-- C7 (amended): `image_for` concatenates the fixed keywords
`abstract, art, gradient, light, bokeh` with the mood tag and the raw
(untrimmed) prompt, comma-separated, percent-encodes that string (escaping
reserved characters including spaces AND the separating commas, which become
`%2C`), and embeds it into the fixed endpoint
`https://source.unsplash.com/` at resolution 1024x768; for any string input
the query part consists solely of URL-safe characters, so the result is a
syntactically valid URL. -/
theorem claim7_image_url (p m : String) :
    image_for p m = "https://source.unsplash.com/1024x768/?" ++ quote (keywords p m) ∧
    keywords p m = "abstract,art,gradient,light,bokeh," ++ m ++ "," ++ p ∧
    quote " " = "%20" ∧ quote "," = "%2C" ∧
    ∀ c ∈ (quote (keywords p m)).data, validUrlChar c = true :=
  ⟨rfl, rfl, rfl, rfl, quote_valid (keywords p m)⟩

/-- C7 counterexample: the keyword string of `image_for "x" "Romantic"`
contains literal commas, but the produced URL contains none: the commas are
percent-encoded to `%2C`, refuting the claim that the separating commas are
not percent-encoded. -/
theorem claim7_counterexample :
    ',' ∈ (keywords "x" "Romantic").data ∧
    ',' ∉ (image_for "x" "Romantic").data ∧
    image_for "x" "Romantic" =
      "https://source.unsplash.com/1024x768/?abstract%2Cart%2Cgradient%2Clight%2Cbokeh%2CRomantic%2Cx" := by
  refine ⟨by decide, by decide, by rfl⟩

/-- C8: The diagnostic probe is a total function of its environment: for
every import outcome and every behaviour of the optional data store it
returns a normal `Response`; failures show up only as a descriptive string
in the `database` field, and when collection listing succeeds the response
carries exactly the first 10 (at most) collection names. -/
theorem claim8_probe_absorbs_failures (env : Env) :
    (test_database env).backend = "✅ Running" ∧
    (test_database env).collections.length ≤ 10 ∧
    (∀ dbh cols, env.importDb = ImportDb.ok (some dbh) → dbh.listCollections = Except.ok cols →
      (test_database env).collections = cols.take 10 ∧
      (test_database env).database = "✅ Connected & Working") ∧
    (env.importDb = ImportDb.importError →
      (test_database env).database = "❌ Database module not found (run enable-database first)") ∧
    (∀ e, env.importDb = ImportDb.otherError e →
      (test_database env).database = "❌ Error: " ++ pyTake e 50) ∧
    (env.importDb = ImportDb.ok none →
      (test_database env).database = "⚠️  Available but not initialized") ∧
    (∀ dbh e, env.importDb = ImportDb.ok (some dbh) → dbh.listCollections = Except.error e →
      (test_database env).database = "⚠️  Connected but Error: " ++ pyTake e 50 ∧
      (test_database env).collections = []) := by
  obtain ⟨imp, du, dn⟩ := env
  cases imp with
  | importError =>
    refine ⟨rfl, ?_, ?_, ?_, ?_, ?_, ?_⟩
    · simp [test_database]
    · intro dbh cols h hc
      simp at h
    · intro h
      rfl
    · intro e h
      simp at h
    · intro h
      simp at h
    · intro dbh e h hc
      simp at h
  | otherError e0 =>
    refine ⟨rfl, ?_, ?_, ?_, ?_, ?_, ?_⟩
    · simp [test_database]
    · intro dbh cols h hc
      simp at h
    · intro h
      simp at h
    · intro e h
      simp at h
      subst h
      rfl
    · intro h
      simp at h
    · intro dbh e h hc
      simp at h
  | ok odb =>
    cases odb with
    | none =>
      refine ⟨rfl, ?_, ?_, ?_, ?_, ?_, ?_⟩
      · simp [test_database]
      · intro dbh cols h hc
        simp at h
      · intro h
        simp at h
      · intro e h
        simp at h
      · intro h
        rfl
      · intro dbh e h hc
        simp at h
    | some dbh =>
      cases hLC : dbh.listCollections with
      | ok cols0 =>
        have hcol : (test_database (Env.mk (ImportDb.ok (some dbh)) du dn)).collections =
            cols0.take 10 := by
          simp [test_database, hLC]
        refine ⟨?_, ?_, ?_, ?_, ?_, ?_, ?_⟩
        · simp [test_database, hLC]
        · rw [hcol, List.length_take]
          omega
        · intro dbh2 cols2 h hc
          simp at h
          subst h
          rw [hLC] at hc
          simp at hc
          subst hc
          exact ⟨hcol, by simp [test_database, hLC]⟩
        · intro h
          simp at h
        · intro e h
          simp at h
        · intro h
          simp at h
        · intro dbh2 e h hc
          simp at h
          subst h
          rw [hLC] at hc
          simp at hc
      | error e0 =>
        refine ⟨?_, ?_, ?_, ?_, ?_, ?_, ?_⟩
        · simp [test_database, hLC]
        · simp [test_database, hLC]
        · intro dbh2 cols2 h hc
          simp at h
          subst h
          rw [hLC] at hc
          simp at hc
        · intro h
          simp at h
        · intro e h
          simp at h
        · intro h
          simp at h
        · intro dbh2 e h hc
          simp at h
          subst h
          rw [hLC] at hc
          simp at hc
          subst hc
          exact ⟨by simp [test_database, hLC], by simp [test_database, hLC]⟩


/-- C10 (amended): In every probe response the `database_url` and
`database_name` fields equal `"✅ Set"` or `"❌ Not Set"`, determined solely
by whether the corresponding environment variable is set to a non-empty
string (Python truthiness of `os.getenv`); the final assignment
unconditionally overwrites any earlier value, so the fields are independent
of the import outcome and of the data store's reachability. -/
theorem claim10_env_flags (env : Env) :
    (test_database env).database_url =
      some (if envTruthy env.databaseUrl then "✅ Set" else "❌ Not Set") ∧
    (test_database env).database_name =
      some (if envTruthy env.databaseName then "✅ Set" else "❌ Not Set") ∧
    ∀ env₂ : Env, env.databaseUrl = env₂.databaseUrl → env.databaseName = env₂.databaseName →
      (test_database env).database_url = (test_database env₂).database_url ∧
      (test_database env).database_name = (test_database env₂).database_name := by
  refine ⟨rfl, rfl, ?_⟩
  intro env₂ h1 h2
  constructor
  · show some (if envTruthy env.databaseUrl then "✅ Set" else "❌ Not Set") =
      some (if envTruthy env₂.databaseUrl then "✅ Set" else "❌ Not Set")
    rw [h1]
  · show some (if envTruthy env.databaseName then "✅ Set" else "❌ Not Set") =
      some (if envTruthy env₂.databaseName then "✅ Set" else "❌ Not Set")
    rw [h2]

/-- C10 counterexample: with `DATABASE_URL` set to the empty string the
variable is set, yet the probe reports `"❌ Not Set"`: the field is decided
by Python truthiness of the value, not by whether the variable is set. -/
theorem claim10_counterexample :
    (Env.mk ImportDb.importError (some "") none).databaseUrl.isSome = true ∧
    (test_database (Env.mk ImportDb.importError (some "") none)).database_url =
      some "❌ Not Set" :=
  ⟨rfl, rfl⟩

/-! ## Template transcription checks: rendering the piece lists with the
literal placeholder texts reproduces the exact template strings of
src/main.py. -/

theorem poem_templates_text :
    structures "Poem" = some poemT ∧ poemT.map renderT =
      ["{prompt} {w1} in the {w2} of night",
       "I fold a {w3} letter to the sky",
       "between breaths, {w4} syllables glow",
       "your name is a small {w5} constellating",
       "the world tilts toward a quiet {w6}",
       "and somewhere, the future loosens its hands",
       "we step into a doorway made of hush",
       "and call it home for one more luminous minute"] :=
  ⟨rfl, by decide⟩

theorem story_templates_text :
    structures "Short Story" = some storyT ∧ storyT.map renderT =
      ["The evening learned our names before we spoke.",
       "{prompt} was only a rumor the moon kept repeating.",
       "In the kitchen, a {w1} clock dripped time into a chipped mug.",
       "We traded secrets like small {w2} coins, warm from the palm.",
       "Outside, the alley held its breath, all {w3} and listening.",
       "You said tomorrow, and the word wavered, a {w4} lantern.",
       "I wanted to believe in the simple machinery of hope.",
       "We walked past windows where strangers practiced happiness.",
       "The city unfurled, a long {w5} ribbon of headlights.",
       "At the river, someone had left a message in the reeds.",
       "It said: keep going. It said: the door is almost open.",
       "We did not turn back. The night followed, gentle and {w6}.",
       "Somewhere a small animal remembered our footsteps.",
       "And the future, patient, set another place at the table."] :=
  ⟨rfl, by decide⟩

theorem haiku_templates_text :
    structures "Haiku" = some haikuT ∧ haikuT.map renderT =
      ["{prompt} in mist",
       "a {w1} window breathing",
       "dawn learns our {w2}"] :=
  ⟨rfl, by decide⟩

theorem micro_templates_text :
    structures "Microfiction" = some microT ∧ microT.map renderT =
      ["We met where {prompt} became a password.",
       "You laughed, and the {w1} street forgot its loneliness.",
       "We promised only this: to listen for {w2} doors opening.",
       "Night wrote our names on its {w3} palm and did not close its hand.",
       "In the morning, one small {w4} miracle was still there, waiting."] :=
  ⟨rfl, by decide⟩

/-! ## Witnesses -/

theorem claim1_witness :
    3 ≤ ((structures "Haiku").getD []).length ∧
    (craft_lines "the lighthouse" "Hopeful" "Haiku" id).map List.length = some 3 ∧
    craft_lines "the lighthouse" "Hopeful" "Haiku" id =
      some (((List.range ((structures "Haiku").getD []).length).map
        (fun i => fillTemplate (pyStrip "the lighthouse") (id (palettes "Hopeful")) i
          (((structures "Haiku").getD []).getD i []))).take 3) :=
  claim1_target_line_count "the lighthouse" "Hopeful" "Haiku" 3 id (by decide)
    (by decide) (List.Perm.refl _)

theorem claim2_witness :
    ["x in mist", "a heartbeat window breathing", "dawn learns our starlit"].getD 1 "" =
      fillTemplate (pyStrip "x") (id (palettes "Romantic")) 1 (haikuT.getD 1 []) ∧
    lineWords (id (palettes "Romantic")) 1 = (id (palettes "Romantic")).rotate 1 :=
  ⟨(claim2_rotating_window "x" "Romantic" "Haiku" id haikuT
      ["x in mist", "a heartbeat window breathing", "dawn learns our starlit"]
      (List.Perm.refl _) rfl rfl 1 (by decide)).1,
   (claim2_rotating_window "x" "Romantic" "Haiku" id haikuT
      ["x in mist", "a heartbeat window breathing", "dawn learns our starlit"]
      (List.Perm.refl _) rfl rfl 1 (by decide)).2.1⟩

theorem claim3_witness :
    containsStr (["x in mist", "a float window breathing", "dawn learns our lantern"].getD 0 "")
      (pyStrip " x ") :=
  (claim3_prompt_in_lines " x " "Dreamlike" "Haiku" id haikuT
      ["x in mist", "a float window breathing", "dawn learns our lantern"]
      rfl rfl 0 (by decide)).1 (by decide)

theorem claim4_witness :
    palettes "Unknown" = palettes "Dreamlike" ∧
    craft_lines "x" "Unknown" "Poem" id = craft_lines "x" "Dreamlike" "Poem" id :=
  ⟨(claim4_unknown_mood_fallback "Unknown" (by decide)).1,
   (claim4_unknown_mood_fallback "Unknown" (by decide)).2 "x" "Poem" id⟩

theorem claim5_witness :
    slotValue (pyStrip "x") (id (palettes "Hopeful")) 0 Slot.w1 ∈ palettes "Hopeful" :=
  (claim5_words_from_palette "Hopeful" "x" id (List.Perm.refl _)).1 0 Slot.w1 (by decide)

theorem claim6_witness : image_for "a" "Romantic" = image_for "a" "Romantic" :=
  claim6_image_deterministic "a" "Romantic" "a" "Romantic" rfl rfl

theorem claim7_witness :
    image_for "sunset beach" "Romantic" =
      "https://source.unsplash.com/1024x768/?" ++ quote (keywords "sunset beach" "Romantic") ∧
    quote " " = "%20" :=
  ⟨(claim7_image_url "sunset beach" "Romantic").1,
   (claim7_image_url "sunset beach" "Romantic").2.2.1⟩

theorem claim8_witness :
    (test_database (Env.mk ImportDb.importError none none)).database =
      "❌ Database module not found (run enable-database first)" :=
  (claim8_probe_absorbs_failures (Env.mk ImportDb.importError none none)).2.2.2.1 rfl

theorem claim9_witness : (lineWords (id (palettes "Romantic")) 2).Nodup :=
  claim9_no_repeat_within_line "Romantic" id (List.Perm.refl _) 2

theorem claim10_witness :
    (test_database (Env.mk ImportDb.importError (some "x") none)).database_url =
      (test_database (Env.mk (ImportDb.ok none) (some "x") none)).database_url :=
  ((claim10_env_flags (Env.mk ImportDb.importError (some "x") none)).2.2
    (Env.mk (ImportDb.ok none) (some "x") none) rfl rfl).1
